import Mathlib

/-!
Shallow embedding of `descwl_shear_sims/layout/layout.py` (class `Layout`:
its constructor and its `get_shifts` method), together with models of the
collaborators the file imports from sibling modules that are out of scope
here (the shift generators of `layout/shifts.py`, the WCS builders of
`wcs.py`, and the module-level constants).  Real-valued quantities of the
source (floats) are embedded as rationals; `np.pi` is embedded as the exact
rational value of the float64 constant the source multiplies with.
-/

/-- The exact rational value of the float64 constant `np.pi` used by the
source when computing the disk area (`np.pi * radius**2`). -/
def np_pi : ℚ := 884279719003555 / 281474976710656

/-- Modelled from the spec: `GRID_SPACING`, the fixed default spacing
constant used when `sep` is omitted for the grid layout (the constants
module is out of scope; no claim depends on its value). -/
def GRID_SPACING : ℚ := 19/2

/-- Modelled from the spec: `HEX_SPACING`, the fixed default spacing
constant used when `sep` is omitted for the hex layout (the constants
module is out of scope; no claim depends on its value). -/
def HEX_SPACING : ℚ := 19/2

/-- Error categories raised by the layout module, following the spec
naming.  `missingParameter` stands for the `ValueError` raised when a
kind-required parameter is absent (messages "Please input `coadd_dim` ..."
and "send sep= for layout ..."), `invalidGeometry` for the `ValueError`
"nonpositive area for layout ...", `invalidLayout` for the `ValueError`
raised on an unrecognized layout name, and `external` for any exception
propagated out of an external collaborator (geometry provider or shift
generator). -/
inductive LayoutError
  | invalidLayout
  | missingParameter
  | invalidGeometry
  | external
  deriving DecidableEq, Repr

/-- Modelled from the spec: the opaque result of the geometry/WCS provider
(`make_coadd_dm_wcs` and `make_coadd_dm_wcs_simple` of `wcs.py`, out of
scope).  The layout module only stores and forwards it, never interprets
its internals, so the model records the inputs the provider was called
with. -/
structure Geometry where
  coadd_dim : Option ℤ
  pixel_scale : ℚ
  simple : Bool
  deriving DecidableEq, Repr

/-- A geometry provider: called with the stored `coadd_dim`, the pixel
scale and the flag selecting the simple bounding-box variant; may fail
(its failures propagate out of the constructor). -/
abbrev GeomProvider := Option ℤ → ℚ → Bool → Except Unit Geometry

/-- The planner state built by `Layout.__init__`.  Attributes that a given
construction path never assigns (all geometry attributes for the pair
layout) are `none`. -/
structure Layout where
  layout_name : String
  pixel_scale : ℚ
  coadd_dim : Option ℤ
  buff : Option ℚ
  area : Option ℚ
  geometry : Option Geometry
  deriving DecidableEq, Repr

/-- Result of a successful construction: the planner together with the
warnings emitted on the way. -/
structure ConstructResult where
  layout : Layout
  warnings : List String
  deriving DecidableEq, Repr

/-- The warning message emitted by the degenerate-field clamp. -/
def smallWarn : String := "dim - 2*buff <= 2, force it to 2."

/-- Shared tail of `Layout.__init__` (lines 91 to 104 of `layout.py`):
store `coadd_dim` and `buff` on the planner and build the geometry
through the provider; a provider failure propagates. -/
def constructFinish (gp : GeomProvider) (layout_name : String) (coadd_dim : Option ℤ)
    (buff pixel_scale : ℚ) (simple_coadd_bbox : Bool) (area : ℚ) (warns : List String) :
    Except LayoutError ConstructResult :=
  match gp coadd_dim pixel_scale simple_coadd_bbox with
  | .error _ => .error LayoutError.external
  | .ok g =>
    .ok ⟨⟨layout_name, pixel_scale, coadd_dim, some buff, some area, some g⟩, warns⟩

/-- Shallow embedding of `Layout.__init__` (lines 21 to 104 of
`layout.py`).  The geometry provider is passed explicitly; in the source
`buff` defaults to `0` and `pixel_scale` to the module constant `SCALE`,
and the `world_origin` argument is accepted but never used, so it is
omitted here.  Raising is modelled by returning `Except.error`. -/
def Layout.construct (gp : GeomProvider) (layout_name : String) (coadd_dim : Option ℤ)
    (buff pixel_scale : ℚ) (simple_coadd_bbox : Bool) :
    Except LayoutError ConstructResult :=
  if layout_name = "random" then
    match coadd_dim with
    | none => .error LayoutError.missingParameter
    | some dim =>
      if (dim : ℚ) - 2*buff < 2 then
        constructFinish gp layout_name coadd_dim buff pixel_scale simple_coadd_bbox
          ((2*pixel_scale/60)^2) [smallWarn]
      else
        constructFinish gp layout_name coadd_dim buff pixel_scale simple_coadd_bbox
          ((((dim : ℚ) - 2*buff)*pixel_scale/60)^2) []
  else if layout_name = "random_disk" then
    match coadd_dim with
    | none => .error LayoutError.missingParameter
    | some dim =>
      if (dim : ℚ) - 2*buff < 2 then
        constructFinish gp layout_name coadd_dim buff pixel_scale simple_coadd_bbox
          (np_pi * (2*pixel_scale/60)^2) [smallWarn]
      else
        constructFinish gp layout_name coadd_dim buff pixel_scale simple_coadd_bbox
          (np_pi * (((dim : ℚ)/2 - buff)*pixel_scale/60)^2) []
  else if layout_name = "hex" then
    constructFinish gp layout_name coadd_dim buff pixel_scale simple_coadd_bbox 0 []
  else if layout_name = "grid" then
    constructFinish gp layout_name coadd_dim buff pixel_scale simple_coadd_bbox 0 []
  else if layout_name = "pair" then
    .ok ⟨⟨layout_name, pixel_scale, none, none, none, none⟩, []⟩
  else
    .error LayoutError.invalidLayout

/-- A position shift: an ordered pair of offsets in arcseconds relative to
the field center. -/
structure Shift where
  dx : ℚ
  dy : ℚ
  deriving DecidableEq, Repr

/-- Model of the `numpy.random.RandomState` handle: two streams of
pre-determined values backing integer and uniform-real draws, a position
that advances on every draw, and an instrumentation log recording the mean
of every Poisson draw requested (most recent last), which lets theorems
observe what the layout code passed to the random source. -/
structure Rng where
  ints : ℕ → ℕ
  rats : ℕ → ℚ
  pos : ℕ
  poissonMeans : List ℚ

/-- A Poisson draw with the given mean.  A Poisson variate with mean `0`
is almost surely `0` and numpy returns `0` deterministically; with a
positive mean the draw is an arbitrary value of the backing stream.  The
requested mean is recorded in the log. -/
def Rng.poisson (r : Rng) (mean : ℚ) : ℕ × Rng :=
  (if mean = 0 then 0 else r.ints r.pos,
   { r with pos := r.pos + 1, poissonMeans := r.poissonMeans ++ [mean] })

/-- Draw one uniform value of the backing stream. -/
def Rng.uniform (r : Rng) : ℚ × Rng :=
  (r.rats r.pos, { r with pos := r.pos + 1 })

/-- Produce `n` points from two uniform draws each, mapped into the square
(or, for the disk generator, through the polar transform, abstracted here)
of half-width `half`. -/
def randomPoints (half : ℚ) (rng : Rng) : ℕ → List Shift × Rng
  | 0 => ([], rng)
  | n+1 =>
    let (u1, rng1) := rng.uniform
    let (u2, rng2) := rng1.uniform
    let (rest, rngf) := randomPoints half rng2 n
    (⟨u1 * 2 * half - half, u2 * 2 * half - half⟩ :: rest, rngf)

/-- Modelled from the spec: `get_pair_shifts` of `layout/shifts.py` (out of
scope) returns exactly two shifts placed symmetrically about the center,
`sep` arcseconds apart along one axis. -/
def get_pair_shifts (rng : Rng) (sep : ℚ) (pixel_scale : ℚ) : List Shift × Rng :=
  ([⟨sep/2, 0⟩, ⟨-(sep/2), 0⟩], rng)

/-- Modelled from the spec: `get_grid_shifts` of `layout/shifts.py` (out of
scope) places objects on a regular square lattice spanning the usable
field; the count is set by how many lattice steps fit, not by the random
source.  An absent `dim` fails (the source would fail with a type error
inside the generator). -/
def get_grid_shifts (rng : Rng) (dim : Option ℤ) (buff : ℚ) (pixel_scale : ℚ)
    (spacing : ℚ) : Except Unit (List Shift × Rng) :=
  match dim with
  | none => .error ()
  | some d =>
    let span := ((d : ℚ) - 2*buff) * pixel_scale
    let n : ℕ := if spacing ≤ 0 then 0 else (span / spacing).floor.toNat
    .ok ((List.range (n*n)).map (fun k =>
      ⟨((k % n : ℕ) : ℚ) * spacing - span/2, ((k / n : ℕ) : ℚ) * spacing - span/2⟩), rng)

/-- Modelled from the spec: `get_hex_shifts` of `layout/shifts.py` (out of
scope) places objects on a triangular lattice with alternating rows offset
by half the spacing, spanning the usable field.  An absent `dim` fails. -/
def get_hex_shifts (rng : Rng) (dim : Option ℤ) (buff : ℚ) (pixel_scale : ℚ)
    (spacing : ℚ) : Except Unit (List Shift × Rng) :=
  match dim with
  | none => .error ()
  | some d =>
    let span := ((d : ℚ) - 2*buff) * pixel_scale
    let n : ℕ := if spacing ≤ 0 then 0 else (span / spacing).floor.toNat
    .ok ((List.range (n*n)).map (fun k =>
      ⟨((k % n : ℕ) : ℚ) * spacing + (if (k / n) % 2 = 1 then spacing/2 else 0) - span/2,
       ((k / n : ℕ) : ℚ) * spacing - span/2⟩), rng)

/-- Modelled from the spec: `get_random_shifts` of `layout/shifts.py` (out
of scope) returns `size` shifts, each with independent uniform x and y
offsets within the usable square region, consuming two uniform draws per
point.  An absent `dim` fails. -/
def get_random_shifts (rng : Rng) (dim : Option ℤ) (buff : ℚ) (pixel_scale : ℚ)
    (size : ℕ) : Except Unit (List Shift × Rng) :=
  match dim with
  | none => .error ()
  | some d =>
    .ok (randomPoints (((d : ℚ)/2 - buff) * pixel_scale) rng size)

/-- Modelled from the spec: `get_random_disk_shifts` of `layout/shifts.py`
(out of scope) returns `size` points drawn uniformly within the usable
disk, two uniform draws per point (radius via a square root, angle
uniform); the irrational polar transform is abstracted, since the claims
observe only the point count and the random-state consumption.  An absent
`dim` fails. -/
def get_random_disk_shifts (rng : Rng) (dim : Option ℤ) (buff : ℚ) (pixel_scale : ℚ)
    (size : ℕ) : Except Unit (List Shift × Rng) :=
  match dim with
  | none => .error ()
  | some d =>
    .ok (randomPoints (((d : ℚ)/2 - buff) * pixel_scale) rng size)

/-- Shallow embedding of `Layout.get_shifts` (lines 106 to 189 of
`layout.py`).  In the source `density` defaults to the module constant
`RANDOM_DENSITY`; here it is passed explicitly.  The planner and the
random state are threaded through the result so that frame effects are
observable: the middle component is the planner state after the call, and
on an error the returned random state is the state at the moment of the
raise.  Reading an attribute a construction path never assigned (possible
only on hand-made planner records) surfaces as `LayoutError.external`,
standing for the `AttributeError` the source would raise. -/
def Layout.get_shifts (self : Layout) (rng : Rng) (density : ℚ) (sep : Option ℚ) :
    Except LayoutError (List Shift) × Layout × Rng :=
  if self.layout_name = "pair" then
    match sep with
    | none => (.error LayoutError.missingParameter, self, rng)
    | some s =>
      let (shifts, rng1) := get_pair_shifts rng s self.pixel_scale
      (.ok shifts, self, rng1)
  else if self.layout_name = "grid" then
    match self.buff with
    | none => (.error LayoutError.external, self, rng)
    | some b =>
      match get_grid_shifts rng self.coadd_dim b self.pixel_scale (sep.getD GRID_SPACING) with
      | .error _ => (.error LayoutError.external, self, rng)
      | .ok (shifts, rng1) => (.ok shifts, self, rng1)
  else if self.layout_name = "hex" then
    match self.buff with
    | none => (.error LayoutError.external, self, rng)
    | some b =>
      match get_hex_shifts rng self.coadd_dim b self.pixel_scale (sep.getD HEX_SPACING) with
      | .error _ => (.error LayoutError.external, self, rng)
      | .ok (shifts, rng1) => (.ok shifts, self, rng1)
  else if self.layout_name = "random" then
    match self.area with
    | none => (.error LayoutError.external, self, rng)
    | some area =>
      if area ≤ 0 then
        (.error LayoutError.invalidGeometry, self, rng)
      else
        let nobj_mean : ℚ := if density ≠ 0 then max (area * density) 1 else 0
        let (nobj, rng1) := rng.poisson nobj_mean
        match self.buff with
        | none => (.error LayoutError.external, self, rng1)
        | some b =>
          match get_random_shifts rng1 self.coadd_dim b self.pixel_scale nobj with
          | .error _ => (.error LayoutError.external, self, rng1)
          | .ok (shifts, rng2) => (.ok shifts, self, rng2)
  else if self.layout_name = "random_disk" then
    match self.area with
    | none => (.error LayoutError.external, self, rng)
    | some area =>
      if area ≤ 0 then
        (.error LayoutError.invalidGeometry, self, rng)
      else
        let nobj_mean : ℚ := if density ≠ 0 then max (area * density) 1 else 0
        let (nobj, rng1) := rng.poisson nobj_mean
        match self.buff with
        | none => (.error LayoutError.external, self, rng1)
        | some b =>
          match get_random_disk_shifts rng1 self.coadd_dim b self.pixel_scale nobj with
          | .error _ => (.error LayoutError.external, self, rng1)
          | .ok (shifts, rng2) => (.ok shifts, self, rng2)
  else
    (.error LayoutError.invalidLayout, self, rng)

/-- A geometry provider that accepts any input and records it. -/
def acceptGP : GeomProvider := fun d ps simple => .ok ⟨d, ps, simple⟩

/-- A geometry provider that fails when `coadd_dim` is absent, as the real
WCS builder would when handed a missing dimension. -/
def strictGP : GeomProvider := fun d ps simple =>
  match d with
  | none => .error ()
  | some dd => .ok ⟨some dd, ps, simple⟩

/-- A concrete random state for witnesses: both backing streams constant. -/
def rng0 : Rng := ⟨fun _ => 3, fun _ => 1/2, 0, []⟩

/-! Helper lemmas shared by the claim theorems. -/

/-- The embedded `np.pi` is positive. -/
theorem np_pi_pos : 0 < np_pi := by norm_num [np_pi]

/-- Generating points never touches the Poisson-mean log: only Poisson
draws are recorded there. -/
theorem randomPoints_poissonMeans (half : ℚ) (rng : Rng) (n : ℕ) :
    (randomPoints half rng n).2.poissonMeans = rng.poissonMeans := by
  induction n generalizing rng with
  | zero => rfl
  | succ k ih => simp [randomPoints, Rng.uniform, ih]

/-- Unfolding of the constructor on the random-box branch. -/
theorem random_branch (gp : GeomProvider) (dim : ℤ) (buff ps : ℚ) (s : Bool) :
    Layout.construct gp "random" (some dim) buff ps s =
      if (dim : ℚ) - 2*buff < 2 then
        constructFinish gp "random" (some dim) buff ps s ((2*ps/60)^2) [smallWarn]
      else
        constructFinish gp "random" (some dim) buff ps s
          ((((dim : ℚ) - 2*buff)*ps/60)^2) [] := rfl

/-- Unfolding of the constructor on the random-disk branch. -/
theorem disk_branch (gp : GeomProvider) (dim : ℤ) (buff ps : ℚ) (s : Bool) :
    Layout.construct gp "random_disk" (some dim) buff ps s =
      if (dim : ℚ) - 2*buff < 2 then
        constructFinish gp "random_disk" (some dim) buff ps s (np_pi * (2*ps/60)^2) [smallWarn]
      else
        constructFinish gp "random_disk" (some dim) buff ps s
          (np_pi * (((dim : ℚ)/2 - buff)*ps/60)^2) [] := rfl

/-- Unfolding of `get_shifts` on a planner whose layout name is `pair`. -/
theorem get_shifts_pair_eq (ps : ℚ) (cd : Option ℤ) (bf ar : Option ℚ) (ge : Option Geometry)
    (rng : Rng) (density : ℚ) (sep : Option ℚ) :
    Layout.get_shifts ⟨"pair", ps, cd, bf, ar, ge⟩ rng density sep =
      match sep with
      | none => (.error LayoutError.missingParameter, ⟨"pair", ps, cd, bf, ar, ge⟩, rng)
      | some s =>
        let (shifts, rng1) := get_pair_shifts rng s ps
        (.ok shifts, ⟨"pair", ps, cd, bf, ar, ge⟩, rng1) := rfl

/-- Unfolding of `get_shifts` on a planner whose layout name is `random`. -/
theorem get_shifts_random_eq (ps : ℚ) (cd : Option ℤ) (bf ar : Option ℚ) (ge : Option Geometry)
    (rng : Rng) (density : ℚ) (sep : Option ℚ) :
    Layout.get_shifts ⟨"random", ps, cd, bf, ar, ge⟩ rng density sep =
      match ar with
      | none => (.error LayoutError.external, ⟨"random", ps, cd, bf, ar, ge⟩, rng)
      | some area =>
        if area ≤ 0 then
          (.error LayoutError.invalidGeometry, ⟨"random", ps, cd, bf, ar, ge⟩, rng)
        else
          let nobj_mean : ℚ := if density ≠ 0 then max (area * density) 1 else 0
          let (nobj, rng1) := rng.poisson nobj_mean
          match bf with
          | none => (.error LayoutError.external, ⟨"random", ps, cd, bf, ar, ge⟩, rng1)
          | some b =>
            match get_random_shifts rng1 cd b ps nobj with
            | .error _ => (.error LayoutError.external, ⟨"random", ps, cd, bf, ar, ge⟩, rng1)
            | .ok (shifts, rng2) => (.ok shifts, ⟨"random", ps, cd, bf, ar, ge⟩, rng2) := rfl

/-- Unfolding of `get_shifts` on a planner whose layout name is `random_disk`. -/
theorem get_shifts_random_disk_eq (ps : ℚ) (cd : Option ℤ) (bf ar : Option ℚ)
    (ge : Option Geometry) (rng : Rng) (density : ℚ) (sep : Option ℚ) :
    Layout.get_shifts ⟨"random_disk", ps, cd, bf, ar, ge⟩ rng density sep =
      match ar with
      | none => (.error LayoutError.external, ⟨"random_disk", ps, cd, bf, ar, ge⟩, rng)
      | some area =>
        if area ≤ 0 then
          (.error LayoutError.invalidGeometry, ⟨"random_disk", ps, cd, bf, ar, ge⟩, rng)
        else
          let nobj_mean : ℚ := if density ≠ 0 then max (area * density) 1 else 0
          let (nobj, rng1) := rng.poisson nobj_mean
          match bf with
          | none => (.error LayoutError.external, ⟨"random_disk", ps, cd, bf, ar, ge⟩, rng1)
          | some b =>
            match get_random_disk_shifts rng1 cd b ps nobj with
            | .error _ => (.error LayoutError.external, ⟨"random_disk", ps, cd, bf, ar, ge⟩, rng1)
            | .ok (shifts, rng2) => (.ok shifts, ⟨"random_disk", ps, cd, bf, ar, ge⟩, rng2) := rfl

/-- On a density-driven planner whose stored area is positive, no branch of
`get_shifts` can produce `invalidGeometry`. -/
theorem get_shifts_pos_area_ne_invalid (nm : String) (ps : ℚ) (cd : Option ℤ) (bf : Option ℚ)
    (a : ℚ) (ge : Option Geometry) (rng : Rng) (density : ℚ) (sep : Option ℚ)
    (hname : nm = "random" ∨ nm = "random_disk") (hpos : 0 < a) :
    (Layout.get_shifts ⟨nm, ps, cd, bf, some a, ge⟩ rng density sep).1 ≠
      .error LayoutError.invalidGeometry := by
  rcases hname with h | h <;> subst h <;> rcases bf with _ | b <;> rcases cd with _ | d <;>
    simp [get_shifts_random_eq, get_shifts_random_disk_eq, hpos.not_le, Rng.poisson,
      get_random_shifts, get_random_disk_shifts]

/-! Sample inputs used by witnesses and counterexamples. -/

/-- The construction result for a degenerate random-disk field (dim 10,
buffer 5, pixel scale 3) under the accepting provider. -/
def disk10 : ConstructResult :=
  ⟨⟨"random_disk", 3, some 10, some 5, some (np_pi * (2*3/60)^2),
    some ⟨some 10, 3, false⟩⟩, [smallWarn]⟩

/-- The construction result for a degenerate random-box field (dim 10,
buffer 5, pixel scale 1) under the accepting provider. -/
def res_box : ConstructResult :=
  ⟨⟨"random", 1, some 10, some 5, some ((2*(1:ℚ)/60)^2), some ⟨some 10, 1, false⟩⟩, [smallWarn]⟩

/-- A random-box planner with a positive stored area. -/
def boxPlanner : Layout := ⟨"random", 1, some 100, some 0, some 9, some ⟨some 100, 1, false⟩⟩

/-- A random-disk planner whose stored area is zero. -/
def diskPlannerZero : Layout := ⟨"random_disk", 1, some 10, some 5, some 0, some ⟨some 10, 1, false⟩⟩

/-- A pair planner as built by the constructor. -/
def pairPlanner : Layout := ⟨"pair", 1, none, none, none, none⟩

/-! The claims. -/

/-- Claim C1, counterexample: at kind random-disk, `field_dim = 10`,
`buffer = 5`, `pixel_scale = 3` (so `field_dim - 2*buffer = 0 < 2`), the
stored usable area is `np_pi * (2*pixel_scale/60)^2` — the radius is
forced to 2 pixels — which differs from the claimed
`np_pi * (1*pixel_scale/60)^2`. -/
theorem C1_radius_one_counterexample :
    Layout.construct acceptGP "random_disk" (some 10) 5 3 false =
      .ok ⟨⟨"random_disk", 3, some 10, some 5, some (np_pi * (2*3/60)^2),
            some ⟨some 10, 3, false⟩⟩, [smallWarn]⟩ ∧
    some (np_pi * ((2:ℚ)*3/60)^2) ≠ some (np_pi * ((1:ℚ)*3/60)^2) := by
  constructor
  · rw [disk_branch, if_pos (by norm_num)]; rfl
  · simp only [ne_eq, Option.some.injEq]
    norm_num [np_pi]

/-- Claim C1 (amended): when a planner is constructed with kind
random-disk and `field_dim - 2*buffer < 2`, the radius is forced to 2
pixels, so the stored usable area equals `np_pi * (2*pixel_scale/60)^2`
square arcminutes, and the degenerate-field warning is emitted. -/
theorem C1_random_disk_clamp_area (gp : GeomProvider) (dim : ℤ) (buff pixel_scale : ℚ)
    (simple : Bool) (res : ConstructResult)
    (hsmall : (dim : ℚ) - 2*buff < 2)
    (h : Layout.construct gp "random_disk" (some dim) buff pixel_scale simple = .ok res) :
    res.layout.area = some (np_pi * (2*pixel_scale/60)^2) ∧ res.warnings = [smallWarn] := by
  rw [disk_branch, if_pos hsmall] at h
  unfold constructFinish at h
  rcases hgp : gp (some dim) pixel_scale simple with e | g <;> rw [hgp] at h
  · exact Except.noConfusion h
  · injection h with h2
    subst h2
    exact ⟨rfl, rfl⟩

/-- Witness for C1 at `dim = 10`, `buff = 5`, `pixel_scale = 3`. -/
theorem C1_random_disk_clamp_area_witness :
    ((10:ℚ) - 2*5 < 2) ∧
    Layout.construct acceptGP "random_disk" (some 10) 5 3 false = .ok disk10 ∧
    (disk10.layout.area = some (np_pi * (2*3/60)^2) ∧ disk10.warnings = [smallWarn]) :=
  ⟨by norm_num,
   by rw [disk_branch, if_pos (by norm_num)]; rfl,
   C1_random_disk_clamp_area acceptGP 10 5 3 false disk10 (by norm_num)
     (by rw [disk_branch, if_pos (by norm_num)]; rfl)⟩

/-- Claim C2, counterexample: constructing a grid planner with
`field_dim` absent does not raise the missing-parameter error — the
constructor has no such check for the grid kind; the absent value reaches
the geometry provider, whose failure surfaces as an external error
instead. -/
theorem C2_grid_none_counterexample :
    Layout.construct strictGP "grid" none 0 1 false = .error LayoutError.external ∧
    Layout.construct strictGP "grid" none 0 1 false ≠ .error LayoutError.missingParameter := by
  refine ⟨rfl, fun h => ?_⟩
  rw [show Layout.construct strictGP "grid" none 0 1 false
      = .error LayoutError.external from rfl] at h
  simp at h

/-- Claim C2 (amended): constructing with `field_dim` absent raises the
missing-parameter error for the random-box and random-disk kinds; for the
grid and hex kinds the constructor performs no such check and never
raises that error, for every geometry provider. -/
theorem C2_missing_field_dim (gp : GeomProvider) (buff pixel_scale : ℚ) (simple : Bool) :
    Layout.construct gp "random" none buff pixel_scale simple =
      .error LayoutError.missingParameter ∧
    Layout.construct gp "random_disk" none buff pixel_scale simple =
      .error LayoutError.missingParameter ∧
    Layout.construct gp "grid" none buff pixel_scale simple ≠
      .error LayoutError.missingParameter ∧
    Layout.construct gp "hex" none buff pixel_scale simple ≠
      .error LayoutError.missingParameter := by
  refine ⟨rfl, rfl, ?_, ?_⟩ <;>
  · show constructFinish gp _ none buff pixel_scale simple 0 [] ≠ _
    unfold constructFinish
    cases gp none pixel_scale simple <;> simp

/-- Claim C3: constructing a random-box planner with
`field_dim - 2*buffer < 2` never raises (given that the geometry provider
succeeds on the same inputs): it emits the warning and stores
`usable_area = (2*pixel_scale/60)^2`, exactly as if the usable side were 2
pixels. -/
theorem C3_random_box_small_field (gp : GeomProvider) (dim : ℤ) (buff pixel_scale : ℚ)
    (simple : Bool) (g : Geometry)
    (hsmall : (dim : ℚ) - 2*buff < 2)
    (hgp : gp (some dim) pixel_scale simple = .ok g) :
    Layout.construct gp "random" (some dim) buff pixel_scale simple =
      .ok ⟨⟨"random", pixel_scale, some dim, some buff, some ((2*pixel_scale/60)^2), some g⟩,
           [smallWarn]⟩ := by
  rw [random_branch, if_pos hsmall]
  unfold constructFinish
  rw [hgp]

/-- Witness for C3 at `dim = 10`, `buff = 5`, `pixel_scale = 1`. -/
theorem C3_random_box_small_field_witness :
    ((10:ℚ) - 2*5 < 2) ∧
    acceptGP (some 10) 1 false = .ok ⟨some 10, 1, false⟩ ∧
    Layout.construct acceptGP "random" (some 10) 5 1 false =
      .ok ⟨⟨"random", 1, some 10, some 5, some ((2*(1:ℚ)/60)^2), some ⟨some 10, 1, false⟩⟩,
           [smallWarn]⟩ :=
  ⟨by norm_num, rfl,
   C3_random_box_small_field acceptGP 10 5 1 false ⟨some 10, 1, false⟩ (by norm_num) rfl⟩

/-- Claim C4: for a random-box or random-disk planner with positive stored
area, a `get_shifts` call with nonzero density requests exactly one
Poisson draw, with mean `max (area * density) 1`. -/
theorem C4_poisson_mean (self : Layout) (rng : Rng) (density : ℚ) (sep : Option ℚ) (a : ℚ)
    (hname : self.layout_name = "random" ∨ self.layout_name = "random_disk")
    (harea : self.area = some a) (hpos : 0 < a) (hdens : density ≠ 0) :
    ((Layout.get_shifts self rng density sep).2.2).poissonMeans =
      rng.poissonMeans ++ [max (a * density) 1] := by
  obtain ⟨nm, ps, cd, bf, ar, ge⟩ := self
  dsimp only at hname harea
  subst harea
  rcases hname with h | h <;> subst h <;> rcases bf with _ | b <;> rcases cd with _ | d <;>
    simp [get_shifts_random_eq, get_shifts_random_disk_eq, hpos.not_le, hdens, Rng.poisson,
      get_random_shifts, get_random_disk_shifts, randomPoints_poissonMeans]

/-- Witness for C4 on a box planner with area 9 and density 2. -/
theorem C4_poisson_mean_witness :
    (boxPlanner.layout_name = "random" ∨ boxPlanner.layout_name = "random_disk") ∧
    boxPlanner.area = some 9 ∧ (0:ℚ) < 9 ∧ (2:ℚ) ≠ 0 ∧
    ((Layout.get_shifts boxPlanner rng0 2 none).2.2).poissonMeans =
      rng0.poissonMeans ++ [max ((9:ℚ) * 2) 1] :=
  ⟨Or.inl rfl, rfl, by norm_num, by norm_num,
   C4_poisson_mean boxPlanner rng0 2 none 9 (Or.inl rfl) rfl (by norm_num) (by norm_num)⟩

/-- Claim C5: for a random-box or random-disk planner with positive stored
area, a `get_shifts` call with density 0 returns the empty shift list, for
every state of the random source. -/
theorem C5_density_zero_empty (self : Layout) (rng : Rng) (sep : Option ℚ) (a : ℚ) (d : ℤ)
    (b : ℚ)
    (hname : self.layout_name = "random" ∨ self.layout_name = "random_disk")
    (harea : self.area = some a) (hpos : 0 < a)
    (hdim : self.coadd_dim = some d) (hbuff : self.buff = some b) :
    (Layout.get_shifts self rng 0 sep).1 = .ok [] := by
  obtain ⟨nm, ps, cd, bf, ar, ge⟩ := self
  dsimp only at hname harea hdim hbuff
  subst harea; subst hdim; subst hbuff
  rcases hname with h | h <;> subst h <;>
    simp [get_shifts_random_eq, get_shifts_random_disk_eq, hpos.not_le, Rng.poisson,
      get_random_shifts, get_random_disk_shifts, randomPoints]

/-- Witness for C5 on a box planner with area 9. -/
theorem C5_density_zero_empty_witness :
    (boxPlanner.layout_name = "random" ∨ boxPlanner.layout_name = "random_disk") ∧
    boxPlanner.area = some 9 ∧ (0:ℚ) < 9 ∧
    boxPlanner.coadd_dim = some 100 ∧ boxPlanner.buff = some 0 ∧
    (Layout.get_shifts boxPlanner rng0 0 none).1 = .ok [] :=
  ⟨Or.inl rfl, rfl, by norm_num, rfl, rfl,
   C5_density_zero_empty boxPlanner rng0 none 9 100 0 (Or.inl rfl) rfl (by norm_num) rfl rfl⟩

/-- Claim C6: for a random-box or random-disk planner whose stored area is
nonpositive, `get_shifts` raises the invalid-geometry error for every
density and every random source, leaving the planner and the random state
untouched — the error precedes any draw, so no partial result exists. -/
theorem C6_nonpositive_area_invalid_geometry (self : Layout) (rng : Rng) (density : ℚ)
    (sep : Option ℚ) (a : ℚ)
    (hname : self.layout_name = "random" ∨ self.layout_name = "random_disk")
    (harea : self.area = some a) (hnp : a ≤ 0) :
    Layout.get_shifts self rng density sep =
      (Except.error LayoutError.invalidGeometry, self, rng) := by
  obtain ⟨nm, ps, cd, bf, ar, ge⟩ := self
  dsimp only at hname harea
  subst harea
  rcases hname with h | h <;> subst h <;>
    simp [get_shifts_random_eq, get_shifts_random_disk_eq, hnp]

/-- Witness for C6 on a disk planner with stored area 0. -/
theorem C6_nonpositive_area_invalid_geometry_witness :
    (diskPlannerZero.layout_name = "random" ∨ diskPlannerZero.layout_name = "random_disk") ∧
    diskPlannerZero.area = some 0 ∧ (0:ℚ) ≤ 0 ∧
    Layout.get_shifts diskPlannerZero rng0 80 none =
      (Except.error LayoutError.invalidGeometry, diskPlannerZero, rng0) :=
  ⟨Or.inr rfl, rfl, le_refl 0,
   C6_nonpositive_area_invalid_geometry diskPlannerZero rng0 80 none 0 (Or.inr rfl) rfl
     (le_refl 0)⟩

/-- Claim C7: on a pair planner, `get_shifts` raises the
missing-parameter error exactly when `sep` is absent; when `sep` is
supplied it returns the pair generator output without error. -/
theorem C7_pair_separation (self : Layout) (rng : Rng) (density : ℚ) (sep : Option ℚ)
    (hname : self.layout_name = "pair") :
    ((Layout.get_shifts self rng density sep).1 = .error LayoutError.missingParameter ↔
      sep = none) ∧
    (∀ s, sep = some s →
      (Layout.get_shifts self rng density sep).1 =
        .ok (get_pair_shifts rng s self.pixel_scale).1) := by
  obtain ⟨nm, ps, cd, bf, ar, ge⟩ := self
  dsimp only at hname
  subst hname
  rcases sep with _ | s <;> simp [get_shifts_pair_eq, get_pair_shifts]

/-- Witness for C7 on a pair planner with `sep = 4`. -/
theorem C7_pair_separation_witness :
    pairPlanner.layout_name = "pair" ∧
    (((Layout.get_shifts pairPlanner rng0 80 (some 4)).1 =
        .error LayoutError.missingParameter ↔ (some (4:ℚ) = none)) ∧
     (∀ s, some (4:ℚ) = some s →
       (Layout.get_shifts pairPlanner rng0 80 (some 4)).1 =
         .ok (get_pair_shifts rng0 s pairPlanner.pixel_scale).1)) :=
  ⟨rfl, C7_pair_separation pairPlanner rng0 80 (some 4) rfl⟩

/-- Claim C8: constructing a pair planner short-circuits: no geometry is
requested from the provider (the result is the same for every provider),
no area is computed, and only the pixel scale and the kind are retained. -/
theorem C8_pair_short_circuit (gp : GeomProvider) (coadd_dim : Option ℤ)
    (buff pixel_scale : ℚ) (simple : Bool) :
    Layout.construct gp "pair" coadd_dim buff pixel_scale simple =
      .ok ⟨⟨"pair", pixel_scale, none, none, none, none⟩, []⟩ := rfl

/-- Claim C9: `get_shifts` never mutates the planner: the planner
component of the post-call state equals the input planner on every path,
succeeding or raising. -/
theorem C9_get_shifts_no_mutation (self : Layout) (rng : Rng) (density : ℚ)
    (sep : Option ℚ) :
    (Layout.get_shifts self rng density sep).2.1 = self := by
  unfold Layout.get_shifts
  repeat' split <;> try rfl
  all_goals dsimp only [Rng.poisson]
  repeat' split <;> try rfl

/-- Claim C10: every random-box or random-disk planner successfully
constructed with a positive pixel scale stores a strictly positive usable
area, so the invalid-geometry branch of `get_shifts` is unreachable for
it. -/
theorem C10_constructed_area_positive (gp : GeomProvider) (name : String)
    (coadd_dim : Option ℤ) (buff pixel_scale : ℚ) (simple : Bool) (res : ConstructResult)
    (hname : name = "random" ∨ name = "random_disk")
    (hps : 0 < pixel_scale)
    (h : Layout.construct gp name coadd_dim buff pixel_scale simple = .ok res) :
    ∃ a, res.layout.area = some a ∧ 0 < a ∧
      ∀ (rng : Rng) (density : ℚ) (sep : Option ℚ),
        (Layout.get_shifts res.layout rng density sep).1 ≠
          .error LayoutError.invalidGeometry := by
  rcases coadd_dim with _ | dim
  · rcases hname with h2 | h2 <;> subst h2 <;> exact Except.noConfusion h
  · have aux : ∀ (nm : String), nm = "random" ∨ nm = "random_disk" → ∀ (A : ℚ), 0 < A →
        ∀ (warns : List String),
        constructFinish gp nm (some dim) buff pixel_scale simple A warns = Except.ok res →
        ∃ a, res.layout.area = some a ∧ 0 < a ∧
          ∀ (rng : Rng) (density : ℚ) (sep : Option ℚ),
            (Layout.get_shifts res.layout rng density sep).1 ≠
              .error LayoutError.invalidGeometry := by
      intro nm hnm A hA warns hfin
      unfold constructFinish at hfin
      rcases hgp : gp (some dim) pixel_scale simple with e | g <;> rw [hgp] at hfin
      · exact Except.noConfusion hfin
      · injection hfin with h2
        subst h2
        exact ⟨A, rfl, hA, fun rng density sep =>
          get_shifts_pos_area_ne_invalid nm pixel_scale (some dim) (some buff) A (some g)
            rng density sep hnm hA⟩
    rcases hname with h2 | h2 <;> subst h2
    · rw [random_branch] at h
      by_cases hsm : (dim : ℚ) - 2*buff < 2
      · rw [if_pos hsm] at h
        exact aux _ (Or.inl rfl) _ (by positivity) _ h
      · rw [if_neg hsm] at h
        have h0 : 0 < (dim:ℚ) - 2*buff := by linarith [not_lt.mp hsm]
        exact aux _ (Or.inl rfl) _ (by positivity) _ h
    · rw [disk_branch] at h
      by_cases hsm : (dim : ℚ) - 2*buff < 2
      · rw [if_pos hsm] at h
        exact aux _ (Or.inr rfl) _ (mul_pos np_pi_pos (by positivity)) _ h
      · rw [if_neg hsm] at h
        have h0 : 0 < (dim:ℚ)/2 - buff := by linarith [not_lt.mp hsm]
        exact aux _ (Or.inr rfl) _ (mul_pos np_pi_pos (by positivity)) _ h

/-- Witness for C10 on the degenerate random-box field of `res_box`. -/
theorem C10_constructed_area_positive_witness :
    (("random":String) = "random" ∨ ("random":String) = "random_disk") ∧ (0:ℚ) < 1 ∧
    Layout.construct acceptGP "random" (some 10) 5 1 false = .ok res_box ∧
    (∃ a, res_box.layout.area = some a ∧ 0 < a ∧
      ∀ (rng : Rng) (density : ℚ) (sep : Option ℚ),
        (Layout.get_shifts res_box.layout rng density sep).1 ≠
          .error LayoutError.invalidGeometry) :=
  ⟨Or.inl rfl, by norm_num,
   by rw [random_branch, if_pos (by norm_num)]; rfl,
   C10_constructed_area_positive acceptGP "random" (some 10) 5 1 false res_box (Or.inl rfl)
     (by norm_num) (by rw [random_branch, if_pos (by norm_num)]; rfl)⟩
